import Mathlib

/-!
Verification of `dl_series.py` (MediaMonger)

A shallow embedding of the concurrency core and download pipeline of
`src/dl_series.py`, with theorems settling the specification claims.

External effects (subprocess results, filesystem contents, move/unlink
outcomes) are passed in explicitly as environment values; the embedded
functions reproduce the control flow of the source over them.
-/

/-!
Python string primitives

Modelled structurally over `List Char` so that every definition computes by
kernel reduction.  Strings enter and leave through `String.data` /
`String.mk`, which preserve the character sequence exactly.
-/

/-- Tests that `sep` occurs as a prefix of `l` (character-wise). -/
def charsHasPre : List Char → List Char → Bool
  | [], _ => true
  | _ :: _, [] => false
  | p :: ps, x :: xs => p == x && charsHasPre ps xs

/-- Worker for Python `str.split(sep)` with a non-empty separator: leftmost
non-overlapping matches, `acc` the (reversed) characters of the current
piece, fuel one more than the remaining characters. -/
def charsSplitGo (sep : List Char) : Nat → List Char → List Char →
    List (List Char)
  | 0, acc, l => [acc.reverse ++ l]
  | _ + 1, acc, [] => [acc.reverse]
  | fuel + 1, acc, x :: xs =>
    if charsHasPre sep (x :: xs) then
      acc.reverse :: charsSplitGo sep fuel [] (List.drop (sep.length - 1) xs)
    else charsSplitGo sep fuel (x :: acc) xs

/-- Python `s.split(sep)` for a non-empty separator (the source only ever
splits on `"\n"`, `":"`, `"."`, `"https://"` and `"Content-Length:"`). -/
def pySplitAll (s sep : String) : List String :=
  if sep.data = [] then [s]
  else (charsSplitGo sep.data (s.data.length + 1) [] s.data).map String.mk

/-- Python `sep.join(parts)`. -/
def pyJoin (sep : String) (parts : List String) : String :=
  String.mk (List.intercalate sep.data (parts.map String.data))

/-- Python `s.startswith(pre)`. -/
def pyStartsWith (s pre : String) : Bool := charsHasPre pre.data s.data

/-- Python `s.strip()` restricted to ASCII whitespace (header values never
carry the further Unicode whitespace Python would also strip). -/
def pyStrip (s : String) : String :=
  String.mk (((s.data.dropWhile Char.isWhitespace).reverse.dropWhile
    Char.isWhitespace).reverse)

/-- Python `s.lower()` (`String.toLower` semantics, character by
character). -/
def pyLower (s : String) : String := String.mk (s.data.map Char.toLower)

/-- All-decimal-digit run to a number. -/
def charsToNat (l : List Char) : Option Nat :=
  if l = [] then none
  else if l.all Char.isDigit then
    some (l.foldl (fun n c => n * 10 + (c.toNat - 48)) 0)
  else none

/-- Python truthiness of an optional integer: `if expected_size:` is false for
both `None` and `0`.  Used by `verify_download` (line 487 of the source). -/
def pyTruthy : Option Int → Bool
  | none => false
  | some n => n != 0

/-- Python `int(s)` on an already-stripped string: optional sign followed by
decimal digits (underscore grouping is not modelled since header values never
carry it). -/
def pyInt? (s : String) : Option Int :=
  match s.data with
  | '-' :: rest => (charsToNat rest).map (fun n => -(n : Int))
  | '+' :: rest => (charsToNat rest).map (fun n => (n : Int))
  | l => (charsToNat l).map (fun n => (n : Int))

/-- Python `s.split(sep, 1)`: split at the first occurrence of `sep` only. -/
def pySplit1 (s sep : String) : List String :=
  match pySplitAll s sep with
  | [] => [s]
  | [x] => [x]
  | x :: rest => [x, pyJoin sep rest]

/-- Python `s.rsplit(sep, 1)`: split at the last occurrence of `sep` only. -/
def pyRSplit1 (s sep : String) : List String :=
  match pySplitAll s sep with
  | [] => [s]
  | [x] => [x]
  | x :: rest => [pyJoin sep (List.dropLast (x :: rest)),
                  List.getLast (x :: rest) (by simp)]

/-!
Link Store: `DownloadManager.update_line_status` (lines 151-183)

The links file is modelled as its list of lines (text-mode lines, newline
terminators stripped, exactly as both the `readlines` pass and the
`fileinput` rewrite loop see them).
-/

/-- Lines 161-169: if the line already carries a `# ` status marker, strip
everything before the first `https://`; otherwise keep the line as is. -/
def cleanLineOf (original_line : String) : String :=
  if pyStartsWith original_line "# " then
    match pySplit1 original_line "https://" with
    | [_, rest] => "https://" ++ rest
    | _ => original_line
  else original_line

/-- Models `update_line_status(line_number, new_status)` (lines 151-183): returns
`none` (the source returns `False`) when the index is out of range, otherwise
the rewritten file where line `line_number` becomes
`new_status ++ " " ++ cleaned line` and the `fileinput` loop reprints every
other line unchanged. -/
def update_line_status (lines : List String) (line_number : Nat)
    (new_status : String) : Option (List String) :=
  if line_number < lines.length then
    let original_line := lines.getD line_number ""
    let new_line := new_status ++ " " ++ cleanLineOf original_line
    some (lines.enum.map (fun p => if p.fst = line_number then new_line else p.snd))
  else none

theorem update_line_status_length (lines : List String) (i : Nat) (s : String)
    (out : List String) (h : update_line_status lines i s = some out) :
    out.length = lines.length := by
  unfold update_line_status at h
  split at h
  · simp only [Option.some.injEq] at h
    subst h
    simp [List.enum_length]
  · exact absurd h (by simp)

theorem update_line_status_frame (lines : List String) (i : Nat) (s : String)
    (out : List String) (h : update_line_status lines i s = some out)
    (j : Nat) (hj : j ≠ i) : out[j]? = lines[j]? := by
  unfold update_line_status at h
  split at h
  · simp only [Option.some.injEq] at h
    subst h
    rw [List.getElem?_map, List.getElem?_enum]
    rcases Nat.lt_or_ge j lines.length with hlt | hge
    · simp [List.getElem?_eq_getElem hlt, hj]
    · simp [List.getElem?_eq_none hge]
  · exact absurd h (by simp)

/-!
Size Oracle: `DownloadManager.get_expected_size` (lines 220-262)

The two subprocess invocations are passed in as an environment:
`Except.error` models the invocation raising (e.g. `subprocess.TimeoutExpired`),
`Except.ok out` models it returning with the given captured text.  The result
records whether the curl fallback was invoked.
-/

/-- Lines 234-242: scan one wget stderr line; the Python expression
splitting on `Content-Length:` takes the segment after the first
occurrence and strips it; an unparsable value means `continue`. -/
def parseWgetLine (line : String) : Option Int :=
  match pySplitAll line "Content-Length:" with
  | _ :: seg :: _ => pyInt? (pyStrip seg)
  | _ => none

/-- Lines 234-242: first parsable `Content-Length:` value in the stderr of wget. -/
def parseWgetStderr (stderr : String) : Option Int :=
  (pySplitAll stderr "\n").findSome? parseWgetLine

/-- Lines 248-256: scan one curl stdout line; the containment test is on the
lowercased line, the split on `:` is on the original line taking element 1. -/
def parseCurlLine (line : String) : Option Int :=
  if 2 ≤ (pySplitAll (pyLower line) "content-length:").length then
    pyInt? (pyStrip ((pySplitAll line ":").getD 1 ""))
  else none

/-- Lines 248-256: first parsable `content-length:` value in the stdout of curl. -/
def parseCurlStdout (stdout : String) : Option Int :=
  (pySplitAll stdout "\n").findSome? parseCurlLine

/-- Outcomes of the two header probes for one `get_expected_size` call. -/
structure ProbeEnv where
  wget : Except Unit String
  curl : Except Unit String

/-- Result of `get_expected_size` plus whether curl was run at all. -/
structure ProbeResult where
  size : Option Int
  curlAttempted : Bool
deriving DecidableEq

/-- Models `get_expected_size(url)` (lines 220-262).  The single `try` block spans
both probes: if the wget invocation raises, the `except` handler at line 258
returns `None` without ever reaching the curl fallback; only a wget run that
completes without a parsable `Content-Length` falls through to curl. -/
def get_expected_size (env : ProbeEnv) : ProbeResult :=
  match env.wget with
  | Except.error _ => ⟨none, false⟩
  | Except.ok werr =>
    match parseWgetStderr werr with
    | some n => ⟨some n, false⟩
    | none =>
      match env.curl with
      | Except.error _ => ⟨none, true⟩
      | Except.ok cout => ⟨parseCurlStdout cout, true⟩

/-!
Verification: `DownloadManager.verify_download` (lines 479-511)
-/

/-- Result of `verify_download`: the returned pair plus the first line the
call logs, which distinguishes a true size match from the no-expected-size
policy pass. -/
structure VerifyResult where
  passed : Bool
  size : Int
  logHead : String
deriving DecidableEq

/-- Models `verify_download(url, local_file, expected_size)` (lines 479-511).
`fileFound` is `local_file and local_file.exists()`; the branch on the
expected size is Python truthiness (`if expected_size:`), so `None` and `0`
both take the "skipped" branch. -/
def verify_download (fileFound : Bool) (actualSize : Int)
    (expectedSize : Option Int) : VerifyResult :=
  if fileFound = false then
    ⟨false, 0, "VERIFICATION FAILED: Local file not found"⟩
  else if pyTruthy expectedSize then
    if actualSize = expectedSize.getD 0 then
      ⟨true, actualSize, "VERIFICATION PASSED: Size match"⟩
    else
      ⟨false, actualSize, "VERIFICATION FAILED: Size mismatch"⟩
  else
    ⟨true, actualSize, "VERIFICATION SKIPPED: No expected size available"⟩

/-!
Relocation: `DownloadManager.move_to_series_directory` (lines 513-540)

The contents of the series directory are passed in as the list of names already
present; the `while destination.exists()` loop is given explicit fuel, one
recursion per loop iteration.
-/

/-- Lines 526-530: the candidate name for a given counter value —
the rsplit-once-on-dot puts the `_counter` suffix before the last extension, or at
the end when the name has no dot. -/
def mkSuffixName (decoded_filename : String) (counter : Nat) : String :=
  match pyRSplit1 decoded_filename "." with
  | [base, ext] => base ++ "_" ++ toString counter ++ "." ++ ext
  | _ => decoded_filename ++ "_" ++ toString counter

/-- Lines 523-532: the `while destination.exists()` loop.  `dest` is the
current candidate, `counter` the next suffix to try. -/
def findFreeDestGo (existing : List String) (decoded_filename : String) :
    Nat → String → Nat → Option String
  | 0, _, _ => none
  | fuel + 1, dest, counter =>
    if dest ∈ existing then
      findFreeDestGo existing decoded_filename fuel
        (mkSuffixName decoded_filename counter) (counter + 1)
    else some dest

/-- Models `move_to_series_directory(local_file, decoded_filename)` (lines 513-540):
`none` when the local file is absent (lines 515-517), otherwise the
destination name chosen by the disambiguation loop starting from the plain
decoded filename with the counter at 1. -/
def move_to_series_directory (fuel : Nat) (existing : List String)
    (localFileExists : Bool) (decoded_filename : String) : Option String :=
  if localFileExists = false then none
  else findFreeDestGo existing decoded_filename fuel decoded_filename 1

theorem findFreeDestGo_not_mem (existing : List String) (fn : String) :
    ∀ fuel dest counter out,
      findFreeDestGo existing fn fuel dest counter = some out →
      out ∉ existing := by
  intro fuel
  induction fuel with
  | zero => intro dest counter out h; exact absurd h (by simp [findFreeDestGo])
  | succ n ih =>
    intro dest counter out h
    unfold findFreeDestGo at h
    split at h
    · exact ih _ _ _ h
    · simp only [Option.some.injEq] at h
      subst h
      assumption

theorem findFreeDestGo_shape (existing : List String) (fn : String) :
    ∀ fuel dest counter out,
      findFreeDestGo existing fn fuel dest counter = some out →
      out = dest ∨ ∃ k, counter ≤ k ∧ out = mkSuffixName fn k := by
  intro fuel
  induction fuel with
  | zero => intro dest counter out h; exact absurd h (by simp [findFreeDestGo])
  | succ n ih =>
    intro dest counter out h
    unfold findFreeDestGo at h
    split at h
    · rcases ih _ _ _ h with h1 | ⟨k, hk, hout⟩
      · exact Or.inr ⟨counter, Nat.le_refl _, h1⟩
      · exact Or.inr ⟨k, Nat.le_of_succ_le hk, hout⟩
    · simp only [Option.some.injEq] at h
      exact Or.inl h.symm

/-!
Download Pipeline: `DownloadManager.process_download` (lines 542-668)

One call processes one `(line_num, url)` entry in a given worker slot.  The
environment supplies every external observation the call makes; the trace
records every externally visible action the call performs, in particular the
single `update_line_status` write each terminal path issues.
-/

/-- Lines 623-630: the unconditional slot-based stagger sleep, in seconds
(slot 3 starts immediately). -/
def staggerDelay (slot_id : Nat) : Nat :=
  if slot_id = 0 then 5
  else if slot_id = 1 then 10
  else if slot_id = 2 then 15
  else 0

/-- External observations made by one `process_download` call. -/
structure PipelineEnv where
  /-- Result of `check_existing_file` (line 557): target name present in cwd. -/
  fileExists : Bool
  /-- its size when present. -/
  existingSize : Int
  /-- Result of `get_expected_size` at the call site reached (line 565 or 621). -/
  probedSize : Option Int
  /-- First component of `check_if_file_is_active_download` (line 612). -/
  isActiveDownload : Bool
  /-- Whether `download_with_wget` returned `(True, filepath)` (line 633). -/
  downloadOk : Bool
  /-- the downloaded file still exists when `verify_download` stats it. -/
  downloadedFileExists : Bool
  /-- its size at verification time. -/
  downloadedSize : Int
  /-- Whether `shutil.move` into the series directory succeeds (line 535). -/
  moveOk : Bool
deriving DecidableEq

/-- Externally visible actions of one `process_download` call. -/
structure PipelineTrace where
  /-- the one `update_line_status` text written, if any. -/
  lineStatus : Option String
  /-- Whether `download_with_wget` was invoked. -/
  invokedWget : Bool
  /-- the stagger sleep performed (in seconds), when the transfer stage
  was reached. -/
  staggerSleep : Option Nat
  /-- Whether `move_to_series_directory` was invoked. -/
  moveInvoked : Bool
  /-- the move succeeded. -/
  movedToSeries : Bool
  /-- Whether `local_file.unlink()` was invoked on the failed artifact (line 650). -/
  deletedLocalFile : Bool
  /-- the log head of the `verify_download` call, when one was made. -/
  verifyLog : Option String
  /-- the `(success, status)` pair returned. -/
  result : Bool × String
deriving DecidableEq

/-- Models `process_download(line_num, url, slot_id)` (lines 542-668), with the
filename bookkeeping of lines 544-555 elided (it only feeds log text and the
names handed to the helpers modelled through `PipelineEnv`). -/
def process_download (env : PipelineEnv) (slot_id : Nat) : PipelineTrace :=
  if env.fileExists then
    match env.probedSize with
    | some expected =>
      if env.existingSize = expected then
        if env.moveOk then
          { lineStatus := some "# COMPLETE (already existed)",
            invokedWget := false, staggerSleep := none,
            moveInvoked := true, movedToSeries := true,
            deletedLocalFile := false, verifyLog := none,
            result := (true, "ALREADY_EXISTED") }
        else
          { lineStatus := some "# FAILED - could not move existing file",
            invokedWget := false, staggerSleep := none,
            moveInvoked := true, movedToSeries := false,
            deletedLocalFile := false, verifyLog := none,
            result := (false, "MOVE_FAILED") }
      else
        { lineStatus := some ("# FAILED - size mismatch (local "
            ++ toString env.existingSize ++ " != expected "
            ++ toString expected ++ ")"),
          invokedWget := false, staggerSleep := none,
          moveInvoked := false, movedToSeries := false,
          deletedLocalFile := false, verifyLog := none,
          result := (false, "SIZE_MISMATCH") }
    | none =>
      { lineStatus := some "# FAILED - cannot verify file size",
        invokedWget := false, staggerSleep := none,
        moveInvoked := false, movedToSeries := false,
        deletedLocalFile := false, verifyLog := none,
        result := (false, "NO_EXPECTED_SIZE") }
  else if env.isActiveDownload then
    { lineStatus := none, invokedWget := false, staggerSleep := none,
      moveInvoked := false, movedToSeries := false,
      deletedLocalFile := false, verifyLog := none,
      result := (false, "ACTIVE") }
  else
    let sl := staggerDelay slot_id
    if env.downloadOk = false then
      { lineStatus := some "# FAILED - ", invokedWget := true,
        staggerSleep := some sl,
        moveInvoked := false, movedToSeries := false,
        deletedLocalFile := false, verifyLog := none,
        result := (false, "DOWNLOAD_FAILED") }
    else
      let v := verify_download env.downloadedFileExists env.downloadedSize
        env.probedSize
      if v.passed = false then
        { lineStatus := some "# FAILED - ", invokedWget := true,
          staggerSleep := some sl,
          moveInvoked := false, movedToSeries := false,
          deletedLocalFile := true, verifyLog := some v.logHead,
          result := (false, "VERIFICATION_FAILED") }
      else if env.moveOk then
        { lineStatus := some "# COMPLETE", invokedWget := true,
          staggerSleep := some sl,
          moveInvoked := true, movedToSeries := true,
          deletedLocalFile := false, verifyLog := some v.logHead,
          result := (true, "COMPLETE") }
      else
        { lineStatus := some "# FAILED - ", invokedWget := true,
          staggerSleep := some sl,
          moveInvoked := true, movedToSeries := false,
          deletedLocalFile := false, verifyLog := some v.logHead,
          result := (false, "MOVE_FAILED") }

/-- Models `download_worker` processing successive queue items in one slot
(lines 670-695): the loop body calls `process_download` once per item with
the fixed `slot_id` of the worker; nothing in the loop records that a previous
item already paid the stagger sleep. -/
def workerProcessEntries (slot_id : Nat) (envs : List PipelineEnv) :
    List PipelineTrace :=
  envs.map (fun env => process_download env slot_id)

/-!
Worker exit condition and the `active_downloads` counter
(lines 42, 670-695, 729-738)
-/

/-- Line 42: `self.active_downloads = 0` — the only assignment to the
counter anywhere in the source. -/
def initActiveDownloads : Nat := 0

/-- The shared state touched by the queue operations of a worker. -/
structure QueueState where
  queue : List (Nat × String)
  active_downloads : Nat
deriving DecidableEq

/-- Lines 674-680: `item = self.download_queue.get(timeout=5)` dequeues the
head and the worker claims it; no statement in `download_worker` or
`process_download` modifies `active_downloads`. -/
def workerClaimItem (s : QueueState) :
    Option ((Nat × String) × QueueState) :=
  match s.queue with
  | [] => none
  | item :: rest => some (item, ⟨rest, s.active_downloads⟩)

/-- Lines 683-685: after `process_download` returns, the worker only calls
`task_done()`; `active_downloads` is again untouched. -/
def workerFinishItem (s : QueueState) : QueueState := s

/-- Lines 689-691 (and 732-733): the completion test
`self.active_downloads == 0 and self.download_queue.empty()`. -/
def workerShouldExit (s : QueueState) : Bool :=
  s.active_downloads == 0 && s.queue.isEmpty

/-!
Worker Pool: `DownloadManager.process_downloads` (lines 697-752)
-/

/-- Line 43: `self.max_concurrent = 4`. -/
def max_concurrent : Nat := 4

/-- Whether a worker thread is currently inside a transfer. -/
inductive WorkerPhase where
  | idle
  | transferring
deriving DecidableEq

/-- Pool state: one phase per spawned worker thread, plus the shared queue. -/
structure PoolState where
  workers : List WorkerPhase
  pending : List (Nat × String)

/-- Lines 717-727: all links are enqueued and exactly `max_concurrent`
worker threads are started, each initially idle. -/
def initPool (links : List (Nat × String)) : PoolState :=
  ⟨List.replicate max_concurrent WorkerPhase.idle, links⟩

/-- Interleaved execution of the worker loops: a worker is sequential, so one
step either has an idle worker dequeue an item and enter its transfer, or a
transferring worker finish its current item and become idle again. -/
inductive PoolStep : PoolState → PoolState → Prop where
  | claim (s : PoolState) (i : Nat) (item : Nat × String)
      (rest : List (Nat × String))
      (hw : s.workers[i]? = some WorkerPhase.idle)
      (hq : s.pending = item :: rest) :
      PoolStep s ⟨s.workers.set i WorkerPhase.transferring, rest⟩
  | finish (s : PoolState) (i : Nat)
      (hw : s.workers[i]? = some WorkerPhase.transferring) :
      PoolStep s ⟨s.workers.set i WorkerPhase.idle, s.pending⟩

/-- States reachable from the freshly started pool. -/
inductive PoolReachable (links : List (Nat × String)) : PoolState → Prop where
  | init : PoolReachable links (initPool links)
  | step {s t : PoolState} : PoolReachable links s → PoolStep s t →
      PoolReachable links t

/-- Number of transfers running simultaneously in a pool state. -/
def activeTransfers (s : PoolState) : Nat :=
  (s.workers.filter (fun w => w == WorkerPhase.transferring)).length

theorem poolStep_workers_length {s t : PoolState} (h : PoolStep s t) :
    t.workers.length = s.workers.length := by
  cases h with
  | claim i item rest hw hq => simp
  | finish i hw => simp

theorem poolReachable_workers_length {links : List (Nat × String)}
    {s : PoolState} (h : PoolReachable links s) :
    s.workers.length = max_concurrent := by
  induction h with
  | init => simp [initPool]
  | step hr hs ih => rw [poolStep_workers_length hs, ih]

/-!
Claim theorems
-/

/-- C1: the claim says `active_downloads` is incremented before every unit of
work is dequeued-and-claimed and decremented only after its pipeline
finishes, so an empty-queue observation during in-flight work never looks
like completion.  The code never modifies the counter: immediately after a
worker claims the only queued item (and is therefore mid-pipeline), the
counter is still 0 and the shared exit condition already evaluates to true,
so another worker observing this state exits prematurely. -/
theorem active_downloads_never_incremented :
    workerClaimItem ⟨[(0, "https://example/file.mkv")], initActiveDownloads⟩
      = some ((0, "https://example/file.mkv"), ⟨[], 0⟩)
    ∧ workerFinishItem ⟨[], 0⟩ = ⟨[], 0⟩
    ∧ workerShouldExit ⟨[], 0⟩ = true :=
  ⟨rfl, rfl, rfl⟩

/-- C2: an entry whose post-download verification fails on a size mismatch
has its partial file deleted, its line marked `# FAILED - `, and is neither
relocated into the series directory nor marked COMPLETE. -/
theorem verification_failure_deletes_and_fails
    (env : PipelineEnv) (slot : Nat)
    (h1 : env.fileExists = false) (h2 : env.isActiveDownload = false)
    (h3 : env.downloadOk = true) (h4 : env.downloadedFileExists = true)
    (h5 : pyTruthy env.probedSize = true)
    (h6 : env.downloadedSize ≠ env.probedSize.getD 0) :
    (process_download env slot).deletedLocalFile = true
    ∧ (process_download env slot).lineStatus = some "# FAILED - "
    ∧ (process_download env slot).moveInvoked = false
    ∧ (process_download env slot).movedToSeries = false
    ∧ (process_download env slot).result = (false, "VERIFICATION_FAILED") := by
  have hv : verify_download env.downloadedFileExists env.downloadedSize
      env.probedSize
      = ⟨false, env.downloadedSize, "VERIFICATION FAILED: Size mismatch"⟩ := by
    unfold verify_download
    rw [h4]
    simp [h5, h6]
  simp [process_download, h1, h2, h3, hv]

/-- Witness for C2 at a concrete environment: expected 100 bytes, got 50. -/
theorem verification_failure_deletes_and_fails_witness :
    (process_download ⟨false, 0, some 100, false, true, true, 50, true⟩ 0).deletedLocalFile = true
    ∧ (process_download ⟨false, 0, some 100, false, true, true, 50, true⟩ 0).lineStatus = some "# FAILED - "
    ∧ (process_download ⟨false, 0, some 100, false, true, true, 50, true⟩ 0).moveInvoked = false
    ∧ (process_download ⟨false, 0, some 100, false, true, true, 50, true⟩ 0).movedToSeries = false
    ∧ (process_download ⟨false, 0, some 100, false, true, true, 50, true⟩ 0).result = (false, "VERIFICATION_FAILED") :=
  verification_failure_deletes_and_fails
    ⟨false, 0, some 100, false, true, true, 50, true⟩ 0
    rfl rfl rfl rfl (by decide) (by decide)

/-- A fresh-download environment in which everything succeeds: no local
file, not actively downloading, probe returns 100, download and move
succeed with a matching size. -/
def freshOkEnv : PipelineEnv :=
  ⟨false, 0, some 100, false, true, true, 100, true⟩

/-- C3 counterexample: the claim says the slot stagger delay is a per-slot
one-time cost, so the second entry a slot processes incurs no delay.  In the
code the sleep at lines 623-630 is unconditional: when slot 0 processes two
fresh entries, both traces record the 5-second stagger sleep, so the second
delay of the second entry is `some 5`, not `none`. -/
theorem stagger_reapplied_on_second_entry :
    ((workerProcessEntries 0 [freshOkEnv, freshOkEnv]).map
        (fun t => t.staggerSleep)) = [some 5, some 5]
    ∧ ((workerProcessEntries 0 [freshOkEnv, freshOkEnv]).map
        (fun t => t.staggerSleep)).getD 1 none ≠ none := by
  constructor
  · rfl
  · decide

/-- C3 (amended): every entry that reaches the transfer stage incurs the
slot-specific stagger delay — slot 0 waits 5s, slot 1 waits 10s, slot 2
waits 15s, slot 3 starts immediately — re-applied on each such entry, not
only the first. -/
theorem stagger_applied_every_fresh_entry
    (env : PipelineEnv) (slot : Nat)
    (h1 : env.fileExists = false) (h2 : env.isActiveDownload = false) :
    (process_download env slot).staggerSleep = some (staggerDelay slot)
    ∧ staggerDelay 0 = 5 ∧ staggerDelay 1 = 10 ∧ staggerDelay 2 = 15
    ∧ staggerDelay 3 = 0 := by
  refine ⟨?_, rfl, rfl, rfl, rfl⟩
  simp only [process_download, h1, h2, Bool.false_eq_true, if_false]
  split
  · rfl
  · split
    · rfl
    · split
      · rfl
      · rfl

/-- Witness for C3 (amended) at a concrete environment in slot 2. -/
theorem stagger_applied_every_fresh_entry_witness :
    (process_download freshOkEnv 2).staggerSleep = some (staggerDelay 2)
    ∧ staggerDelay 0 = 5 ∧ staggerDelay 1 = 10 ∧ staggerDelay 2 = 15
    ∧ staggerDelay 3 = 0 :=
  stagger_applied_every_fresh_entry freshOkEnv 2 rfl rfl

/-- Witness for C4: rewriting line 0 of a two-line file leaves line 1
untouched. -/
theorem update_line_status_frame_witness :
    update_line_status ["https://a", "https://b"] 0 "# COMPLETE"
      = some ["# COMPLETE https://a", "https://b"]
    ∧ (["# COMPLETE https://a", "https://b"] : List String)[1]?
      = (["https://a", "https://b"] : List String)[1]? := by
  refine ⟨by decide, ?_⟩
  exact update_line_status_frame ["https://a", "https://b"] 0 "# COMPLETE"
    ["# COMPLETE https://a", "https://b"] (by decide) 1 (by decide)

/-- C5: in every state reachable by interleaving the worker loops spawned by
`process_downloads`, at most `max_concurrent` transfers are running at the
same time, because exactly `max_concurrent` sequential workers exist. -/
theorem at_most_max_concurrent_transfers (links : List (Nat × String))
    (s : PoolState) (h : PoolReachable links s) :
    activeTransfers s ≤ max_concurrent := by
  calc activeTransfers s ≤ s.workers.length := List.length_filter_le _ _
  _ = max_concurrent := poolReachable_workers_length h

/-- Witness for C5 at the initial state of a ten-entry queue. -/
theorem at_most_max_concurrent_transfers_witness :
    activeTransfers (initPool ((List.range 10).map
      (fun i => (i, "https://example")))) ≤ max_concurrent :=
  at_most_max_concurrent_transfers _ _ PoolReachable.init

/-- C6 counterexample: the claim says that whenever the wget probe fails to
yield a content length, curl is attempted before the function returns
unknown.  When the wget invocation raises (e.g. a timeout), the `except`
handler at line 258 returns `None` directly: the result is unknown and
`curlAttempted` is `false`, even though a working curl answer was
available. -/
theorem wget_exception_skips_curl :
    get_expected_size ⟨Except.error (), Except.ok "content-length: 5"⟩
      = ⟨none, false⟩
    ∧ (get_expected_size
        ⟨Except.error (), Except.ok "content-length: 5"⟩).curlAttempted
      ≠ true := by
  constructor
  · rfl
  · decide

/-- C6 (amended): `get_expected_size` never propagates a failure — it always
returns a value, `none` on any probe failure; when the wget invocation
completes without a parsable content length, curl is attempted before giving
up; when the wget invocation itself raises, the exception handler returns
unknown without attempting curl. -/
theorem probe_fallback_behaviour (werr : String) (curl : Except Unit String)
    (h : parseWgetStderr werr = none) :
    (get_expected_size ⟨Except.ok werr, curl⟩).curlAttempted = true
    ∧ get_expected_size ⟨Except.error (), curl⟩ = ⟨none, false⟩ := by
  constructor
  · unfold get_expected_size
    dsimp only
    rw [h]
    cases curl <;> rfl
  · rfl

/-- Witness for C6 (amended): wget ran but its stderr holds no length. -/
theorem probe_fallback_behaviour_witness :
    (get_expected_size ⟨Except.ok "HTTP/1.1 200 OK",
        Except.ok "content-length: 5"⟩).curlAttempted = true
    ∧ get_expected_size ⟨Except.error (), Except.ok "content-length: 5"⟩
      = ⟨none, false⟩ :=
  probe_fallback_behaviour "HTTP/1.1 200 OK" (Except.ok "content-length: 5")
    (by decide)

/-- C7: an entry whose decoded target file already exists locally with size
exactly equal to the freshly probed expected size is relocated into the
series directory and marked `# COMPLETE (already existed)` without the
transfer runner ever being invoked. -/
theorem existing_exact_size_completes_without_transfer
    (env : PipelineEnv) (slot : Nat)
    (h1 : env.fileExists = true)
    (h2 : env.probedSize = some env.existingSize)
    (h3 : env.moveOk = true) :
    (process_download env slot).invokedWget = false
    ∧ (process_download env slot).moveInvoked = true
    ∧ (process_download env slot).movedToSeries = true
    ∧ (process_download env slot).lineStatus
      = some "# COMPLETE (already existed)"
    ∧ (process_download env slot).result = (true, "ALREADY_EXISTED") := by
  simp [process_download, h1, h2, h3]

/-- Witness for C7: local file of 4096 bytes, probe also says 4096. -/
theorem existing_exact_size_completes_without_transfer_witness :
    (process_download ⟨true, 4096, some 4096, false, false, false, 0, true⟩ 1).invokedWget = false
    ∧ (process_download ⟨true, 4096, some 4096, false, false, false, 0, true⟩ 1).moveInvoked = true
    ∧ (process_download ⟨true, 4096, some 4096, false, false, false, 0, true⟩ 1).movedToSeries = true
    ∧ (process_download ⟨true, 4096, some 4096, false, false, false, 0, true⟩ 1).lineStatus
      = some "# COMPLETE (already existed)"
    ∧ (process_download ⟨true, 4096, some 4096, false, false, false, 0, true⟩ 1).result
      = (true, "ALREADY_EXISTED") :=
  existing_exact_size_completes_without_transfer
    ⟨true, 4096, some 4096, false, false, false, 0, true⟩ 1 rfl rfl rfl

/-- C8: a fresh download whose size probe returned unknown and whose file
exists afterward passes verification by policy — the entry is not failed for
the missing expected size, its artifact is not deleted — and the logged
outcome is the distinct "skipped" line, not the true-size-match line. -/
theorem no_expected_size_passes_by_policy
    (env : PipelineEnv) (slot : Nat)
    (h1 : env.fileExists = false) (h2 : env.isActiveDownload = false)
    (h3 : env.downloadOk = true) (h4 : env.probedSize = none)
    (h5 : env.downloadedFileExists = true) :
    (verify_download env.downloadedFileExists env.downloadedSize
      env.probedSize).passed = true
    ∧ (process_download env slot).verifyLog
      = some "VERIFICATION SKIPPED: No expected size available"
    ∧ (process_download env slot).deletedLocalFile = false
    ∧ (process_download env slot).result.snd ≠ "VERIFICATION_FAILED"
    ∧ ("VERIFICATION SKIPPED: No expected size available"
        ≠ "VERIFICATION PASSED: Size match") := by
  have hv : verify_download env.downloadedFileExists env.downloadedSize
      env.probedSize
      = ⟨true, env.downloadedSize,
          "VERIFICATION SKIPPED: No expected size available"⟩ := by
    unfold verify_download
    rw [h5, h4]
    simp [pyTruthy]
  refine ⟨by rw [hv], ?_, ?_, ?_, by decide⟩
  · simp only [process_download, h1, h2, h3, hv, Bool.false_eq_true, if_false]
    by_cases hm : env.moveOk = true <;> simp [hm]
  · simp only [process_download, h1, h2, h3, hv, Bool.false_eq_true, if_false]
    by_cases hm : env.moveOk = true <;> simp [hm]
  · simp only [process_download, h1, h2, h3, hv, Bool.false_eq_true, if_false]
    by_cases hm : env.moveOk = true <;> simp [hm]

/-- Witness for C8: probe unknown, download succeeded with 777 bytes. -/
theorem no_expected_size_passes_by_policy_witness :
    (verify_download true 777 none).passed = true
    ∧ (process_download ⟨false, 0, none, false, true, true, 777, true⟩ 3).verifyLog
      = some "VERIFICATION SKIPPED: No expected size available"
    ∧ (process_download ⟨false, 0, none, false, true, true, 777, true⟩ 3).deletedLocalFile = false
    ∧ (process_download ⟨false, 0, none, false, true, true, 777, true⟩ 3).result.snd
      ≠ "VERIFICATION_FAILED"
    ∧ ("VERIFICATION SKIPPED: No expected size available"
        ≠ "VERIFICATION PASSED: Size match") :=
  no_expected_size_passes_by_policy
    ⟨false, 0, none, false, true, true, 777, true⟩ 3 rfl rfl rfl rfl rfl

/-- C9: whenever the relocation loop returns a destination, that name is not
among the names already present in the series directory (no silent
overwrite), and if the plain decoded name was taken, the chosen name carries
a numeric `_k` suffix (before the extension) for some counter `k ≥ 1`. -/
theorem relocation_disambiguates_never_overwrites
    (fuel : Nat) (existing : List String) (fn dest : String)
    (h : move_to_series_directory fuel existing true fn = some dest) :
    dest ∉ existing
    ∧ (fn ∈ existing → ∃ k, 1 ≤ k ∧ dest = mkSuffixName fn k) := by
  unfold move_to_series_directory at h
  simp only [Bool.true_eq_false, if_false] at h
  have hnm := findFreeDestGo_not_mem existing fn fuel fn 1 dest h
  refine ⟨hnm, fun hmem => ?_⟩
  rcases findFreeDestGo_shape existing fn fuel fn 1 dest h with h1 | ⟨k, hk, hout⟩
  · exact absurd (h1 ▸ hmem) hnm
  · exact ⟨k, hk, hout⟩

/-- Witness for C9: `a.txt` and `a_1.txt` are taken, so `a_2.txt` is
chosen. -/
theorem relocation_disambiguates_never_overwrites_witness :
    "a_2.txt" ∉ (["a.txt", "a_1.txt"] : List String)
    ∧ ("a.txt" ∈ (["a.txt", "a_1.txt"] : List String) →
        ∃ k, 1 ≤ k ∧ "a_2.txt" = mkSuffixName "a.txt" k) :=
  relocation_disambiguates_never_overwrites 3 ["a.txt", "a_1.txt"]
    "a.txt" "a_2.txt" (by decide)

/-- C10: with an existing local file and an expected size of exactly 0,
`verify_download` takes the same branch as an unknown expected size — the
Python truthiness test `if expected_size:` is false for 0 — so it passes and
returns the actual size whatever that size is, never demanding a match. -/
theorem expected_size_zero_behaves_as_unknown (a : Int) :
    verify_download true a (some 0) = verify_download true a none
    ∧ (verify_download true a (some 0)).passed = true
    ∧ (verify_download true a (some 0)).size = a := by
  unfold verify_download
  simp [pyTruthy]
